import Mathlib

/-!
Verification of the jwtauth middleware (jwtauth.go): an `Authenticator`
(`JwtAuth`) holding signing/verify keys and a signing method, and the
per-request filter `Handle` that extracts a bearer token from a request,
decodes and verifies it, checks expiry, and either forwards the request
with an augmented context or answers 401 "unauthorized token".

The jwt-go library (base64/JSON codec, method registry, signature
primitives) is an external collaborator of the repository; it is modelled
as a capability record `JwtLib` whose contractual behaviour appears as
hypotheses where a theorem needs it.  Go byte strings are modelled as
`String` (character-level, faithful for ASCII, where all the header
comparisons live), `[]byte` keys as `List Nat`, `int64` as `Int`, and the
wall clock `EpochNow()` as an explicit `now : Int` parameter.
-/

namespace Jwtauth

/-- Dynamic claim values (Go `interface{}` in `map[string]interface{}`).
`vint` is the Go dynamic type `int64`, which is the only type the expiry
check's type assertion `token.Claims["exp"].(int64)` accepts; every other
dynamic type (float64, bool, nested maps, ...) behaves identically there,
so they are collapsed into the remaining tags. -/
inductive ClaimVal
  | vint (n : Int)
  | vstr (s : String)
  | vbool (b : Bool)
  | vnull
  | vother (tag : String)
deriving DecidableEq

/-- Go `map[string]interface{}`, as an association list (first key wins). -/
abbrev Claims := List (String × ClaimVal)

/-- Map lookup `claims[key]`: first matching key, `none` when absent. -/
def lookupClaim : Claims → String → Option ClaimVal
  | [], _ => none
  | (k, v) :: rest, key => if k = key then some v else lookupClaim rest key

/-- A jwt-go signing method (`jwt.SigningMethod`): its registered algorithm
name and its sign/verify capabilities.  Registered methods are singletons
per algorithm name, so the Go pointer comparison `token.Method != ja.signer`
is modelled as comparison of algorithm names. -/
structure SigningMethod where
  alg : String
  sign : List Nat → String → Except String String
  verify : List Nat → String → String → Bool

/-- The parsed token (`jwt.Token`): header algorithm name, claim set,
validity flag and the raw encoded string. -/
structure Token where
  method : String
  claims : Claims
  valid : Bool
  raw : String
deriving DecidableEq

/-- The external jwt-go layer used by `Encode`/`Decode`: splitting an
encoded string into its three dot-separated segments, the base64url/JSON
codec for the header and claim segments, and the method registry
(`jwt.GetSigningMethod`).  Both the default parser and a custom one from
`NewWithParser` implement this same contract. -/
structure JwtLib where
  split3 : String → Option (String × String × String)
  decHeader : String → Option String
  decClaims : String → Option Claims
  encHeader : String → String
  encClaims : Claims → String
  registry : String → Option SigningMethod

/-- Decode/verify failures distinguished internally by the library; the
filter collapses them all into one unauthorized response. -/
inductive JwtError
  | malformed
  | unsupportedAlg
  | sigInvalid
  | signingError
deriving DecidableEq

/-- The `JwtAuth` struct: signing key, optional verify key, signing method. -/
structure JwtAuth where
  signKey : List Nat
  verifyKey : List Nat
  signer : SigningMethod

/-- `keyFunc`: the key selection handed to the parser.  Go:
`if ja.verifyKey != nil && len(ja.verifyKey) > 0 { return ja.verifyKey }
return ja.signKey` (a nil slice has length 0, so the condition is exactly
`len > 0`). -/
def keyFunc (ja : JwtAuth) : List Nat :=
  if 0 < ja.verifyKey.length then ja.verifyKey else ja.signKey

/-- `Decode` (via `jwt.Parse` or the custom parser, same contract): split
the encoded string into three parts, decode header and claims, look up the
method the header declares, and verify the signature over
`"header.claims"` with the key chosen by `keyFunc`.  On success the token
carries `valid = true`; parsing never consults the configured signer. -/
def Decode (lib : JwtLib) (ja : JwtAuth) (s : String) : Except JwtError Token :=
  match lib.split3 s with
  | none => Except.error JwtError.malformed
  | some (h, c, sig) =>
    match lib.decHeader h with
    | none => Except.error JwtError.malformed
    | some alg =>
      match lib.decClaims c with
      | none => Except.error JwtError.malformed
      | some cl =>
        match lib.registry alg with
        | none => Except.error JwtError.unsupportedAlg
        | some m =>
          if m.verify (keyFunc ja) (h ++ "." ++ c) sig
          then Except.ok { method := alg, claims := cl, valid := true, raw := s }
          else Except.error JwtError.sigInvalid

/-- `Encode`: build a token with the configured signer, assign the claims,
sign `"header.claims"` with `signKey` (Go `t.SignedString(ja.signKey)`,
which yields the empty string on failure), then set `t.Raw = tokenString`
unconditionally and return the token, the string and the error. -/
def Encode (lib : JwtLib) (ja : JwtAuth) (claims : Claims) :
    Token × String × Option JwtError :=
  let ss := lib.encHeader ja.signer.alg ++ "." ++ lib.encClaims claims
  match ja.signer.sign ja.signKey ss with
  | Except.error _ =>
    ({ method := ja.signer.alg, claims := claims, valid := false, raw := "" },
      "", some JwtError.signingError)
  | Except.ok sig =>
    ({ method := ja.signer.alg, claims := claims, valid := false,
       raw := ss ++ "." ++ sig },
      ss ++ "." ++ sig, none)

/-- An inbound request: `r.URL.Query().Get` (empty string when absent),
`r.Header.Get`, and `r.Cookie` (which errors when the cookie is absent,
modelled as `none`). -/
structure Request where
  query : String → String
  header : String → String
  cookie : String → Option String

/-- Go `unicode.ToUpper` as used by `strings.ToUpper`, restricted to the
ASCII range (all comparisons performed by the filter are against the ASCII
word "BEARER", which no non-ASCII character uppercases into). -/
def goUpper (c : Char) : Char :=
  if 'a' ≤ c ∧ c ≤ 'z' then Char.ofNat (c.toNat - 32) else c

/-- The Authorization-header probe:
`if len(bearer) > 7 && strings.ToUpper(bearer[0:6]) == "BEARER" {
tokenStr = bearer[7:] }`.  Note the code checks only the first six
characters and the total length; the character at index 6 is skipped, not
required to be a space. -/
def bearerExtract (bearer : String) : String :=
  let cs := bearer.toList
  if 7 < cs.length ∧ (cs.take 6).map goUpper = ("BEARER").toList
  then String.mk (cs.drop 7)
  else ""

/-- The alias loop: `for _, p := range paramAliases { tokenStr =
r.URL.Query().Get(p); if tokenStr != "" { break } }`.  When every alias is
empty the loop leaves the last `Get`'s empty string in `tokenStr`. -/
def probeAliases (r : Request) : List String → String
  | [] => ""
  | p :: ps =>
    let t := r.query p
    if t = "" then probeAliases r ps else t

/-- Lines 55-62: `if tokenStr == "" && paramAliases != nil &&
len(paramAliases) > 0 { for ... }` (a non-nil empty slice also fails the
guard, so the guard is `tokenStr = "" ∧ paramAliases ≠ []`). -/
def aliasStep (r : Request) (paramAliases : List String) (t : String) : String :=
  if t = "" ∧ paramAliases ≠ [] then probeAliases r paramAliases else t

/-- Lines 64-70: probe the Authorization header when still empty. -/
def headerStep (r : Request) (t : String) : String :=
  if t = "" then bearerExtract (r.header ("Authorization")) else t

/-- Lines 72-78: probe the `jwt` cookie when still empty; `r.Cookie`
errors when the cookie is absent and `tokenStr` is then left unchanged. -/
def cookieStep (r : Request) (t : String) : String :=
  if t = "" then
    match r.cookie ("jwt") with
    | some v => v
    | none => t
  else t

/-- Token discovery, lines 48-78 of `Handle`: the `jwt` query parameter,
then the alias parameters, then the Authorization header, then the `jwt`
cookie — each step one sequential assignment of the Go code. -/
def findToken (paramAliases : List String) (r : Request) : String :=
  cookieStep r (headerStep r (aliasStep r paramAliases (r.query ("jwt"))))

/-- Context values installed for the downstream handler: the raw string
under "jwt" and the parsed token under "jwt.token". -/
inductive CtxVal
  | vstr (s : String)
  | vtok (t : Token)
deriving DecidableEq

/-- The observable outcome of one filter invocation: either
`http.Error(w, body, status)` without calling `next`, or
`next.ServeHTTPC` with the augmented context entries. -/
inductive HandleResult
  | unauthorized (status : Nat) (body : String)
  | forwarded (ctx : List (String × CtxVal))
deriving DecidableEq

/-- `errUnauthorized = errors.New("unauthorized token")`. -/
def errUnauthorizedMsg : String := "unauthorized token"

/-- The context entries attached on success (lines 101-102). -/
def successCtx (t : Token) : List (String × CtxVal) :=
  [("jwt", CtxVal.vstr t.raw), ("jwt.token", CtxVal.vtok t)]

/-- Lines 86-104 of `Handle`: decode the candidate (the dead
`err = errUnauthorized` assignment of line 82 is overwritten by
`token, err := ja.Decode(tokenStr)`), reject on decode error, invalid
token or signer mismatch, apply the `exp` check when the claim's dynamic
type is `int64`, and otherwise forward with the augmented context. -/
def authorize (lib : JwtLib) (ja : JwtAuth) (now : Int) (tokenStr : String) :
    HandleResult :=
  match Decode lib ja tokenStr with
  | Except.error _ => HandleResult.unauthorized 401 errUnauthorizedMsg
  | Except.ok token =>
    if token.valid = false ∨ token.method ≠ ja.signer.alg then
      HandleResult.unauthorized 401 errUnauthorizedMsg
    else
      match lookupClaim token.claims ("exp") with
      | some (ClaimVal.vint e) =>
        if e < now then HandleResult.unauthorized 401 errUnauthorizedMsg
        else HandleResult.forwarded (successCtx token)
      | _ => HandleResult.forwarded (successCtx token)

/-- `Handle(paramAliases...)`: the full per-request filter, with the wall
clock `EpochNow()` passed in as `now`. -/
def Handle (lib : JwtLib) (ja : JwtAuth) (paramAliases : List String) (now : Int)
    (r : Request) : HandleResult :=
  authorize lib ja now (findToken paramAliases r)

/-- `Handler(next)` is `ja.Handle("")(next)`: the variadic call receives the
one-element alias list containing the empty string. -/
def Handler (lib : JwtLib) (ja : JwtAuth) (now : Int) (r : Request) : HandleResult :=
  Handle lib ja [""] now r

/-! Concrete instantiation: a small executable `JwtLib` and configurations,
used to evaluate the definitions on concrete inputs. -/

/-- Character tag of a key, so the toy signature textually records which
key produced it. -/
def keyTag (k : List Nat) : String :=
  String.mk (k.map (fun n => Char.ofNat (65 + n)))

/-- Toy symmetric signing: the signature is the signing string tagged with
the key. -/
def toySign (k : List Nat) (ss : String) : Except String String :=
  Except.ok (ss ++ "|" ++ keyTag k)

/-- Toy symmetric verification: accept exactly the signature `toySign`
produces with the same key. -/
def toyVerify (k : List Nat) (ss : String) (sig : String) : Bool :=
  sig == ss ++ "|" ++ keyTag k

/-- Toy HS256 method. -/
def hs256 : SigningMethod := ⟨"HS256", toySign, toyVerify⟩

/-- Toy RS256 method: cannot sign here, and its (public-key) verification
accepts everything — deliberately lax, to exercise the algorithm-confusion
defence. -/
def rs256 : SigningMethod := ⟨"RS256", fun _ _ => Except.error ("no private key"), fun _ _ _ => true⟩

/-- Toy method whose signing always fails, to exercise the `Encode` error
path. -/
def badMethod : SigningMethod :=
  ⟨"HS256", fun _ _ => Except.error ("bad key"), fun _ _ _ => false⟩

def demoClaims : Claims := [("sub", ClaimVal.vstr ("alice"))]

def demoClaims2 : Claims := [("sub", ClaimVal.vstr ("bob"))]

def demoHeaderStr : String := "h:HS256"

def demoClaimsStr : String := "c:demo"

def demoSS : String := demoHeaderStr ++ "." ++ demoClaimsStr

def demoSig : String := demoSS ++ "|" ++ keyTag [1, 2]

def demoToken : String := demoSS ++ "." ++ demoSig

def demoHeader2 : String := "h:RS256"

def demoClaims2Str : String := "c2"

def demoSig2 : String := "s2"

def demoToken2 : String := demoHeader2 ++ "." ++ demoClaims2Str ++ "." ++ demoSig2

/-- The token `demoToken2` decodes to: declares RS256, verified (the lax
toy RS256 accepts it), hence valid. -/
def demoTok2 : Token := ⟨"RS256", demoClaims2, true, demoToken2⟩

def expClaims99 : Claims := [("exp", ClaimVal.vint 99)]

def expClaims3700 : Claims := [("exp", ClaimVal.vint 3700)]

def expClaimsStr99 : String := "ce99"

def expClaimsStr3700 : String := "ce3700"

def expSS99 : String := demoHeaderStr ++ "." ++ expClaimsStr99

def expSS3700 : String := demoHeaderStr ++ "." ++ expClaimsStr3700

def expSig99 : String := expSS99 ++ "|" ++ keyTag [1, 2]

def expSig3700 : String := expSS3700 ++ "|" ++ keyTag [1, 2]

def expToken99 : String := expSS99 ++ "." ++ expSig99

def expToken3700 : String := expSS3700 ++ "." ++ expSig3700

/-- Concrete library: a finite table standing in for base64url/JSON. -/
def toyLib : JwtLib where
  split3 s :=
    if s = demoToken then some (demoHeaderStr, demoClaimsStr, demoSig)
    else if s = demoToken2 then some (demoHeader2, demoClaims2Str, demoSig2)
    else if s = expToken99 then some (demoHeaderStr, expClaimsStr99, expSig99)
    else if s = expToken3700 then some (demoHeaderStr, expClaimsStr3700, expSig3700)
    else none
  decHeader h :=
    if h = demoHeaderStr then some ("HS256")
    else if h = demoHeader2 then some ("RS256")
    else none
  decClaims c :=
    if c = demoClaimsStr then some demoClaims
    else if c = demoClaims2Str then some demoClaims2
    else if c = expClaimsStr99 then some expClaims99
    else if c = expClaimsStr3700 then some expClaims3700
    else none
  encHeader a := "h:" ++ a
  encClaims c := if c = demoClaims then demoClaimsStr else "cX"
  registry a :=
    if a = ("HS256") then some hs256
    else if a = ("RS256") then some rs256
    else none

/-- Symmetric configuration: HS256, signing key `[1, 2]`, no verify key. -/
def tja : JwtAuth := ⟨[1, 2], [], hs256⟩

/-- Configuration with a separate verify key `[3]`. -/
def tjaVk : JwtAuth := ⟨[1, 2], [3], hs256⟩

/-- Configuration whose signer always fails to sign. -/
def tjaBad : JwtAuth := ⟨[1, 2], [], badMethod⟩

/-- Request with no token in any source. -/
def rEmpty : Request := ⟨fun _ => "", fun _ => "", fun _ => none⟩

/-- Request whose only candidate is an undecodable header token. -/
def rGarbage : Request :=
  ⟨fun _ => "", fun k => if k = ("Authorization") then "Bearer garbage" else "", fun _ => none⟩

/-- Request carrying `demoToken2` (an RS256 token) in the `jwt` query
parameter. -/
def rMismatch : Request :=
  ⟨fun k => if k = ("jwt") then demoToken2 else "", fun _ => "", fun _ => none⟩

/-- Request whose query parameter with the EMPTY name carries a decodable
token; every other source is empty. -/
def rEmptyName : Request :=
  ⟨fun k => if k = "" then demoToken else "", fun _ => "", fun _ => none⟩

/-- Request carrying the token whose `exp` is 99. -/
def rExp99 : Request :=
  ⟨fun k => if k = ("jwt") then expToken99 else "", fun _ => "", fun _ => none⟩

/-- Request carrying the token whose `exp` is 3700. -/
def rExp3700 : Request :=
  ⟨fun k => if k = ("jwt") then expToken3700 else "", fun _ => "", fun _ => none⟩

/-! Helper lemmas. -/

/-- A token `Decode` returns successfully always carries `valid = true`. -/
theorem decode_ok_valid (lib : JwtLib) (ja : JwtAuth) (s : String) (tok : Token)
    (h : Decode lib ja s = Except.ok tok) : tok.valid = true := by
  unfold Decode at h
  split at h
  · exact Except.noConfusion h
  · split at h
    · exact Except.noConfusion h
    · split at h
      · exact Except.noConfusion h
      · split at h
        · exact Except.noConfusion h
        · split at h
          · cases h; rfl
          · exact Except.noConfusion h

/-- `Decode` depends on the configuration only through the key `keyFunc`
selects. -/
theorem decode_keyFunc_congr (lib : JwtLib) (ja ja' : JwtAuth) (s : String)
    (h : keyFunc ja = keyFunc ja') : Decode lib ja s = Decode lib ja' s := by
  unfold Decode
  rw [h]

/-- Spec-side definition (C6), following the spec's words: take the first
non-empty entry of a list of probe results, the empty string when there is
none. -/
def firstNonEmpty : List String → String
  | [] => ""
  | s :: rest => if s = "" then firstNonEmpty rest else s

/-- The value of the `jwt` cookie, the empty string when absent. -/
def cookieValue (r : Request) : String :=
  match r.cookie ("jwt") with
  | some v => v
  | none => ""

/-- Spec-side definition (C6), following the spec's words: the candidate
token is the first non-empty hit among the `jwt` query parameter, the
alias parameters in configured order, the Authorization header and the
`jwt` cookie. -/
def specCandidate (paramAliases : List String) (r : Request) : String :=
  firstNonEmpty (r.query ("jwt") :: (paramAliases.map r.query ++
    [bearerExtract (r.header ("Authorization")), cookieValue r]))

/-- `firstNonEmpty` of a single probe is that probe's value. -/
theorem firstNonEmpty_single (s : String) : firstNonEmpty [s] = s := by
  by_cases h : s = "" <;> simp [firstNonEmpty, h]

/-- `firstNonEmpty` splits along an append. -/
theorem firstNonEmpty_append (xs ys : List String) :
    firstNonEmpty (xs ++ ys) =
      if firstNonEmpty xs = "" then firstNonEmpty ys else firstNonEmpty xs := by
  induction xs with
  | nil => simp [firstNonEmpty]
  | cons x xs ih =>
    by_cases h : x = ""
    · simp [firstNonEmpty, h, ih]
    · simp [firstNonEmpty, h]

/-- The Go alias loop computes the first non-empty alias value. -/
theorem probeAliases_eq_firstNonEmpty (r : Request) (as : List String) :
    probeAliases r as = firstNonEmpty (as.map r.query) := by
  induction as with
  | nil => rfl
  | cons p ps ih =>
    by_cases h : r.query p = ""
    · simp [probeAliases, firstNonEmpty, h, ih]
    · simp [probeAliases, firstNonEmpty, h]

/-- The guard `paramAliases != nil && len(paramAliases) > 0` around the
alias loop is redundant: the loop leaves the empty string anyway. -/
theorem alias_guard_redundant (r : Request) (as : List String) :
    (if as ≠ [] then probeAliases r as else "") = probeAliases r as := by
  cases as <;> simp [probeAliases]

/-- The cookie step agrees with `firstNonEmpty` over the two remaining
probes. -/
theorem cookieStep_eq (r : Request) (b : String) :
    cookieStep r b = firstNonEmpty [b, cookieValue r] := by
  by_cases hb : b = ""
  · rw [hb]
    cases hc : r.cookie ("jwt") with
    | none => simp [cookieStep, cookieValue, hc, firstNonEmpty]
    | some v =>
      by_cases hv : v = "" <;> simp [cookieStep, cookieValue, hc, firstNonEmpty, hv]
  · simp [cookieStep, firstNonEmpty, hb]

/-- The alias step agrees with `firstNonEmpty` over the primary parameter
and the aliases. -/
theorem aliasStep_eq (r : Request) (paramAliases : List String) :
    aliasStep r paramAliases (r.query ("jwt")) =
      firstNonEmpty (r.query ("jwt") :: paramAliases.map r.query) := by
  by_cases h0 : r.query ("jwt") = ""
  · rw [aliasStep, h0]
    simp only [firstNonEmpty]
    simp only [eq_self_iff_true, true_and, if_true]
    rw [alias_guard_redundant, probeAliases_eq_firstNonEmpty]
  · simp [aliasStep, firstNonEmpty, h0]

/-- The header and cookie steps together extend `firstNonEmpty` along the
two trailing probes. -/
theorem tail_steps_eq (r : Request) (xs : List String) :
    cookieStep r (headerStep r (firstNonEmpty xs)) =
      firstNonEmpty (xs ++ [bearerExtract (r.header ("Authorization")), cookieValue r]) := by
  rw [firstNonEmpty_append]
  by_cases hx : firstNonEmpty xs = ""
  · rw [if_pos hx, hx]
    have hh : headerStep r ("") = bearerExtract (r.header ("Authorization")) := by
      simp [headerStep]
    rw [hh, cookieStep_eq]
  · rw [if_neg hx]
    have hh : headerStep r (firstNonEmpty xs) = firstNonEmpty xs := by
      simp [headerStep, hx]
    rw [hh]
    simp [cookieStep, hx]

/-- The alias loop yields nothing when every alias parameter is empty. -/
theorem probeAliases_empty (r : Request) (as : List String)
    (h : ∀ p ∈ as, r.query p = "") : probeAliases r as = "" := by
  induction as with
  | nil => rfl
  | cons p ps ih =>
    have hp : r.query p = "" := h p (List.mem_cons_self p ps)
    simp [probeAliases, hp]
    exact ih (fun q hq => h q (List.mem_cons_of_mem p hq))

/-- `firstNonEmpty` of a list of empty probes is empty. -/
theorem firstNonEmpty_all_empty (xs : List String) (h : ∀ x ∈ xs, x = "") :
    firstNonEmpty xs = "" := by
  induction xs with
  | nil => rfl
  | cons x xs ih =>
    have hx := h x (List.mem_cons_self x xs)
    simp [firstNonEmpty, hx]
    exact ih (fun y hy => h y (List.mem_cons_of_mem x hy))

/-- Every unauthorized answer of the filter is status 401 with the fixed
body. -/
theorem authorize_401 (lib : JwtLib) (ja : JwtAuth) (now : Int) (ts : String)
    (st : Nat) (b : String)
    (h : authorize lib ja now ts = HandleResult.unauthorized st b) :
    st = 401 ∧ b = errUnauthorizedMsg := by
  unfold authorize at h
  split at h
  · injection h with h1 h2; exact ⟨h1.symm, h2.symm⟩
  · split at h
    · injection h with h1 h2; exact ⟨h1.symm, h2.symm⟩
    · split at h
      · split at h
        · injection h with h1 h2; exact ⟨h1.symm, h2.symm⟩
        · exact HandleResult.noConfusion h
      · exact HandleResult.noConfusion h

/-- C2: the key handed to signature verification is `verifyKey` whenever
`verifyKey` is non-empty and `signingKey` otherwise; with a non-empty
`verifyKey` the outcome of `Decode` is moreover independent of the signing
key (verification never falls back to it). -/
theorem c2_key_selection (lib : JwtLib) (ja : JwtAuth) (s : String) (k' : List Nat) :
    (ja.verifyKey ≠ [] →
      keyFunc ja = ja.verifyKey ∧
      Decode lib { signKey := k', verifyKey := ja.verifyKey, signer := ja.signer } s =
        Decode lib ja s) ∧
    (ja.verifyKey = [] → keyFunc ja = ja.signKey) := by
  constructor
  · intro hne
    have hlen : 0 < ja.verifyKey.length := List.length_pos.mpr hne
    refine ⟨?_, ?_⟩
    · unfold keyFunc
      rw [if_pos hlen]
    · apply decode_keyFunc_congr
      unfold keyFunc
      simp [hlen]
  · intro he
    unfold keyFunc
    rw [he]
    simp

/-- Witness for C2: with verify key `[3]` configured, `keyFunc` selects it
and changing the signing key to `[9]` leaves `Decode` unchanged; with no
verify key, `keyFunc` selects the signing key. -/
theorem c2_key_selection_witness :
    (keyFunc tjaVk = tjaVk.verifyKey ∧
      Decode toyLib { signKey := [9], verifyKey := tjaVk.verifyKey, signer := tjaVk.signer } ("x") =
        Decode toyLib tjaVk ("x")) ∧
    keyFunc tja = tja.signKey :=
  ⟨(c2_key_selection toyLib tjaVk ("x") [9]).1 (by decide),
    (c2_key_selection toyLib tja ("x") [9]).2 rfl⟩

/-- C3: a token whose declared signing method differs from the configured
one yields 401 and never reaches the downstream handler, even though the
decoded token's validity flag is true. -/
theorem c3_alg_confusion (lib : JwtLib) (ja : JwtAuth) (paramAliases : List String)
    (now : Int) (r : Request) (tok : Token)
    (hdec : Decode lib ja (findToken paramAliases r) = Except.ok tok)
    (hm : tok.method ≠ ja.signer.alg) :
    Handle lib ja paramAliases now r = HandleResult.unauthorized 401 errUnauthorizedMsg ∧
    tok.valid = true := by
  refine ⟨?_, decode_ok_valid lib ja _ tok hdec⟩
  unfold Handle authorize
  simp [hdec, hm]

/-- Witness for C3: an RS256-signed token that the lax RS256 verifier
accepts (valid = true) is still rejected by the HS256-configured filter. -/
theorem c3_alg_confusion_witness :
    Handle toyLib tja [] 100 rMismatch = HandleResult.unauthorized 401 errUnauthorizedMsg ∧
    demoTok2.valid = true :=
  c3_alg_confusion toyLib tja [] 100 rMismatch demoTok2 rfl (by decide)

/-- C10: `Encode` always returns a token whose `Raw` field equals the
returned encoded string, and when signing fails both are the empty
string; the token itself is always returned (the model's `Encode` is a
total function into `Token`, never an optional one). -/
theorem c10_encode_raw (lib : JwtLib) (ja : JwtAuth) (c : Claims) :
    (Encode lib ja c).1.raw = (Encode lib ja c).2.1 ∧
    ((Encode lib ja c).2.2 ≠ none → (Encode lib ja c).2.1 = "") := by
  cases hs : ja.signer.sign ja.signKey (lib.encHeader ja.signer.alg ++ "." ++ lib.encClaims c) with
  | error e => simp [Encode, hs]
  | ok sig => simp [Encode, hs]

/-- Witness for C10: with a signer whose signing always fails, the encoded
string is empty and `Raw` equals it. -/
theorem c10_encode_raw_witness :
    (Encode toyLib tjaBad demoClaims).2.1 = "" ∧
    (Encode toyLib tjaBad demoClaims).1.raw = (Encode toyLib tjaBad demoClaims).2.1 :=
  ⟨(c10_encode_raw toyLib tjaBad demoClaims).2 (by decide),
    (c10_encode_raw toyLib tjaBad demoClaims).1⟩

/-- C6: the candidate token is the first non-empty hit probing, in order,
the `jwt` query parameter, the alias parameters in configured order, the
Authorization header and the `jwt` cookie; the filter's decision is taken
on exactly that candidate (so a request with both a `jwt` parameter and a
different header token authenticates with the parameter's token, and
aliases are consulted only when the `jwt` parameter is empty). -/
theorem c6_probe_order (paramAliases : List String) (r : Request) (lib : JwtLib)
    (ja : JwtAuth) (now : Int) :
    findToken paramAliases r = specCandidate paramAliases r ∧
    Handle lib ja paramAliases now r =
      authorize lib ja now (specCandidate paramAliases r) := by
  have hmain : findToken paramAliases r = specCandidate paramAliases r := by
    rw [findToken, aliasStep_eq, tail_steps_eq, specCandidate]
    simp [List.cons_append]
  exact ⟨hmain, by rw [Handle, hmain]⟩

/-- C7: when no probe yields a non-empty candidate (and the library
rejects the empty string as malformed, as the three-segment split always
does), the filter answers 401 with the fixed body and the downstream
handler is never invoked. -/
theorem c7_no_token (lib : JwtLib) (ja : JwtAuth) (paramAliases : List String)
    (now : Int) (r : Request)
    (h0 : r.query ("jwt") = "")
    (hal : ∀ p ∈ paramAliases, r.query p = "")
    (hb : bearerExtract (r.header ("Authorization")) = "")
    (hc : cookieValue r = "")
    (hsplit : lib.split3 ("") = none) :
    Handle lib ja paramAliases now r = HandleResult.unauthorized 401 errUnauthorizedMsg := by
  have hft : findToken paramAliases r = "" := by
    rw [findToken, aliasStep_eq, tail_steps_eq]
    apply firstNonEmpty_all_empty
    intro x hx
    rcases List.mem_append.mp hx with hx1 | hx2
    · rcases List.mem_cons.mp hx1 with hq | hmap
      · rw [hq]; exact h0
      · obtain ⟨p, hp, hpx⟩ := List.mem_map.mp hmap
        rw [← hpx]; exact hal p hp
    · rcases List.mem_cons.mp hx2 with hx3 | hx4
      · rw [hx3]; exact hb
      · rcases List.mem_cons.mp hx4 with hx5 | hx6
        · rw [hx5]; exact hc
        · exact absurd hx6 (List.not_mem_nil x)
  rw [Handle, hft]
  simp [authorize, Decode, hsplit]

/-- Witness for C7: the request with no token anywhere is answered 401
with the fixed body under the concrete library. -/
theorem c7_no_token_witness :
    Handle toyLib tja [] 100 rEmpty = HandleResult.unauthorized 401 errUnauthorizedMsg :=
  c7_no_token toyLib tja [] 100 rEmpty rfl (fun _ _ => rfl) rfl rfl rfl

/-- C8: any two rejected requests receive identical responses — status
401 with the fixed body "unauthorized token" — regardless of the failure
cause, so the response reveals nothing about why a token was rejected. -/
theorem c8_uniform_failure (lib : JwtLib) (ja : JwtAuth) (paramAliases : List String)
    (now : Int) (r1 r2 : Request) (s1 : Nat) (b1 : String) (s2 : Nat) (b2 : String)
    (h1 : Handle lib ja paramAliases now r1 = HandleResult.unauthorized s1 b1)
    (h2 : Handle lib ja paramAliases now r2 = HandleResult.unauthorized s2 b2) :
    s1 = 401 ∧ b1 = errUnauthorizedMsg ∧
      Handle lib ja paramAliases now r1 = Handle lib ja paramAliases now r2 := by
  unfold Handle at h1 h2
  obtain ⟨hs1, hb1⟩ := authorize_401 lib ja now (findToken paramAliases r1) s1 b1 h1
  obtain ⟨hs2, hb2⟩ := authorize_401 lib ja now (findToken paramAliases r2) s2 b2 h2
  refine ⟨hs1, hb1, ?_⟩
  unfold Handle
  rw [h1, h2, hs1, hb1, hs2, hb2]

/-- Witness for C8: a request with no token at all and a request with an
undecodable header token receive the same 401 response. -/
theorem c8_uniform_failure_witness :
    401 = 401 ∧ errUnauthorizedMsg = errUnauthorizedMsg ∧
      Handle toyLib tja [] 100 rEmpty = Handle toyLib tja [] 100 rGarbage :=
  c8_uniform_failure toyLib tja [] 100 rEmpty rGarbage 401 errUnauthorizedMsg
    401 errUnauthorizedMsg (by decide) (by decide)

/-- C1: encoding a claim set with the configured method and key and
decoding the result yields a token with `valid = true` and the same claim
set, assuming the external library's contract — the segment codecs invert
each other, the three-segment split inverts joining, the configured
algorithm is registered, signing succeeds, and the method's verification
accepts its own signature under the key `keyFunc` selects. -/
theorem c1_round_trip (lib : JwtLib) (ja : JwtAuth) (C : Claims) (sig : String)
    (m : SigningMethod)
    (hsign : ja.signer.sign ja.signKey
      (lib.encHeader ja.signer.alg ++ "." ++ lib.encClaims C) = Except.ok sig)
    (hsplit : lib.split3 (lib.encHeader ja.signer.alg ++ "." ++ lib.encClaims C ++ "." ++ sig) =
      some (lib.encHeader ja.signer.alg, lib.encClaims C, sig))
    (hdech : lib.decHeader (lib.encHeader ja.signer.alg) = some ja.signer.alg)
    (hdecc : lib.decClaims (lib.encClaims C) = some C)
    (hreg : lib.registry ja.signer.alg = some m)
    (hver : m.verify (keyFunc ja)
      (lib.encHeader ja.signer.alg ++ "." ++ lib.encClaims C) sig = true) :
    ∃ tok : Token, Decode lib ja (Encode lib ja C).2.1 = Except.ok tok ∧
      tok.valid = true ∧ tok.claims = C := by
  have henc : (Encode lib ja C).2.1 =
      lib.encHeader ja.signer.alg ++ "." ++ lib.encClaims C ++ "." ++ sig := by
    simp [Encode, hsign]
  rw [henc]
  simp only [Decode, hsplit, hdech, hdecc, hreg, hver, if_true]
  exact ⟨_, rfl, rfl, rfl⟩

/-- Witness for C1: the concrete round trip of the demo claim set under
the HS256 configuration. -/
theorem c1_round_trip_witness :
    ∃ tok : Token, Decode toyLib tja (Encode toyLib tja demoClaims).2.1 = Except.ok tok ∧
      tok.valid = true ∧ tok.claims = demoClaims :=
  c1_round_trip toyLib tja demoClaims demoSig hs256 rfl rfl rfl rfl rfl rfl

/-- C4: once a token decodes successfully and its method matches, an
`exp` claim carried as an integer rejects the request with 401 exactly
when `exp < now` and forwards it when `now ≤ exp`; when `exp` is absent or
not an integer value the request is not rejected on expiry grounds. -/
theorem c4_expiry (lib : JwtLib) (ja : JwtAuth) (paramAliases : List String)
    (now : Int) (r : Request) (tok : Token) (e : Int)
    (hdec : Decode lib ja (findToken paramAliases r) = Except.ok tok)
    (hm : tok.method = ja.signer.alg) :
    (lookupClaim tok.claims ("exp") = some (ClaimVal.vint e) → e < now →
      Handle lib ja paramAliases now r = HandleResult.unauthorized 401 errUnauthorizedMsg) ∧
    (lookupClaim tok.claims ("exp") = some (ClaimVal.vint e) → now ≤ e →
      Handle lib ja paramAliases now r = HandleResult.forwarded (successCtx tok)) ∧
    ((∀ n : Int, lookupClaim tok.claims ("exp") ≠ some (ClaimVal.vint n)) →
      Handle lib ja paramAliases now r = HandleResult.forwarded (successCtx tok)) := by
  have hv : tok.valid = true := decode_ok_valid lib ja _ tok hdec
  have hnc : ¬(tok.valid = false ∨ tok.method ≠ ja.signer.alg) := by
    simp [hv, hm]
  refine ⟨?_, ?_, ?_⟩
  · intro hexp hlt
    unfold Handle authorize
    simp only [hdec]
    rw [if_neg hnc]
    simp only [hexp]
    rw [if_pos hlt]
  · intro hexp hle
    unfold Handle authorize
    simp only [hdec]
    rw [if_neg hnc]
    simp only [hexp]
    rw [if_neg (not_lt.mpr hle)]
  · intro hall
    unfold Handle authorize
    simp only [hdec]
    rw [if_neg hnc]

/-- Witness for C4: with `now = 100`, the token with `exp = 99`
(`now - 1`) is rejected and the token with `exp = 3700` (`now + 3600`) is
forwarded. -/
theorem c4_expiry_witness :
    Handle toyLib tja [] 100 rExp99 = HandleResult.unauthorized 401 errUnauthorizedMsg ∧
    Handle toyLib tja [] 100 rExp3700 =
      HandleResult.forwarded (successCtx ⟨"HS256", expClaims3700, true, expToken3700⟩) :=
  ⟨(c4_expiry toyLib tja [] 100 rExp99 ⟨"HS256", expClaims99, true, expToken99⟩ 99
      rfl rfl).1 rfl (by decide),
   (c4_expiry toyLib tja [] 100 rExp3700 ⟨"HS256", expClaims3700, true, expToken3700⟩ 3700
      rfl rfl).2.1 rfl (by decide)⟩

/-- Spec-side predicate (C5), following the spec's words: the header value
begins with the case-insensitive 7-character scheme "Bearer " — six
letters and exactly one space. -/
def bearerSchemeSpec (s : String) : Bool :=
  (s.toList.take 7).map goUpper == ("BEARER ").toList

/-- C5 counterexample: the header value "BearerXtok" does not begin with
the scheme "Bearer " (its seventh character is not a space), yet the code
extracts the candidate "tok" from it — the claimed iff fails. -/
theorem c5_counterexample :
    bearerExtract ("BearerXtok") = "tok" ∧ bearerSchemeSpec ("BearerXtok") = false :=
  ⟨rfl, rfl⟩

/-- C5 amended: a candidate is extracted iff the header value is longer
than seven characters and its first six characters case-insensitively
equal "bearer"; the seventh character is skipped but never inspected (a
space is not required), and the candidate is exactly the substring after
the first seven characters. -/
theorem c5_bearer_amended (b : String) :
    (bearerExtract b ≠ "" ↔
      (7 < b.toList.length ∧ (b.toList.take 6).map goUpper = ("BEARER").toList)) ∧
    (7 < b.toList.length → (b.toList.take 6).map goUpper = ("BEARER").toList →
      bearerExtract b = String.mk (b.toList.drop 7)) := by
  constructor
  · constructor
    · intro hne
      by_contra hcond
      have hemp : bearerExtract b = "" := by
        simp only [bearerExtract]
        rw [if_neg hcond]
      exact hne hemp
    · intro hcond
      have hb : bearerExtract b = String.mk (b.toList.drop 7) := by
        simp only [bearerExtract]
        rw [if_pos hcond]
      rw [hb]
      intro hemp
      have hdrop : b.toList.drop 7 = [] := congrArg String.data hemp
      have hlen : (b.toList.drop 7).length = 0 := by rw [hdrop]; rfl
      rw [List.length_drop] at hlen
      omega
  · intro h1 h2
    simp only [bearerExtract]
    rw [if_pos ⟨h1, h2⟩]

/-- Witness for C5 amended: "bearer abc" (lower-case scheme) extracts the
candidate "abc", which is non-empty. -/
theorem c5_bearer_amended_witness :
    bearerExtract ("bearer abc") = String.mk (("bearer abc").toList.drop 7) ∧
    bearerExtract ("bearer abc") ≠ "" :=
  ⟨(c5_bearer_amended ("bearer abc")).2 (by decide) (by decide),
   (c5_bearer_amended ("bearer abc")).1.mpr (by decide)⟩

/-- C9 counterexample: `Handler` passes the one-element alias list
containing the empty string, not the empty alias list, so on a request
whose query parameter with the EMPTY name carries a (decodable) token,
`Handler` and the zero-alias `Handle()` produce different outcomes. -/
theorem c9_counterexample :
    Handler toyLib tja 100 rEmptyName ≠ Handle toyLib tja [] 100 rEmptyName := by
  decide

/-- C9 amended: `Handler(next)` equals `Handle("")(next)` — the wrapping
operation configured with the single alias "" — and agrees with the
zero-alias `Handle()(next)` on every request whose empty-named query
parameter is empty. -/
theorem c9_handler_amended (lib : JwtLib) (ja : JwtAuth) (now : Int) (r : Request) :
    Handler lib ja now r = Handle lib ja [""] now r ∧
    (r.query ("") = "" → Handler lib ja now r = Handle lib ja [] now r) := by
  refine ⟨rfl, ?_⟩
  intro h
  unfold Handler Handle
  have haux : aliasStep r [""] (r.query ("jwt")) = aliasStep r [] (r.query ("jwt")) := by
    unfold aliasStep
    by_cases h0 : r.query ("jwt") = ""
    · simp [h0, probeAliases, h]
    · simp [h0]
  rw [findToken, findToken, haux]

/-- Witness for C9 amended: on the request with no token anywhere (whose
empty-named parameter is empty), `Handler` and zero-alias `Handle` agree. -/
theorem c9_handler_amended_witness :
    Handler toyLib tja 100 rEmpty = Handle toyLib tja [""] 100 rEmpty ∧
    Handler toyLib tja 100 rEmpty = Handle toyLib tja [] 100 rEmpty :=
  ⟨(c9_handler_amended toyLib tja 100 rEmpty).1,
   (c9_handler_amended toyLib tja 100 rEmpty).2 rfl⟩

end Jwtauth
